import Mathlib

/-!
Verification of the airdrop-claim client module (src/utils/airdrop.ts).

The module is a thin adapter over an HTTP API: it builds a request URL,
performs one GET, classifies the status/body into a tagged result, and
separately converts a successful claim into a transfer-transaction
descriptor.  Below, the TypeScript interfaces and functions are embedded
as Lean structures and total functions; the JSON body handed to the
classifier is modelled by an explicit `Json` value, and the transport is
modelled as a function from the request URL to an outcome (a status/body
pair when the exchange and the JSON parse succeed, or a failure marker
covering every thrown exception).
-/

/-- A parsed JSON value, standing for the TypeScript `any` body that
`response.json()` yields. -/
inductive Json where
  | null : Json
  | bool : Bool → Json
  | num : Int → Json
  | str : String → Json
  | arr : List Json → Json
  | obj : List (String × Json) → Json

/-- Field lookup on a JSON object (first binding wins); `none` on any
non-object value or absent key. -/
def Json.getField : Json → String → Option Json
  | .obj fields, k => fields.lookup k
  | _, _ => none

/-- Embeds `interface InternalMessage` of the source. -/
structure InternalMessage where
  mode : Int
  address : String
  state_init : Option String
  payload : String
  amount : String

/-- Embeds `interface UserClaimInfo` of the source; `VestingParameters`
is an empty placeholder interface, modelled as `Unit`. -/
structure UserClaimInfo where
  jetton : String
  available_jetton_amount : String
  total_jetton_amount : String
  claimed_jetton_amount : String
  vesting_parameters : Option Unit

/-- Embeds `interface UserClaim extends UserClaimInfo`. -/
structure UserClaim extends UserClaimInfo where
  claim_message : InternalMessage

/-- One element of the `messages` array produced by `getTxFromUserClaim`. -/
structure TxMessage where
  address : String
  amount : String
  payload : String
  stateInit : Option String

/-- The transaction object produced by `getTxFromUserClaim`. -/
structure TxRequest where
  validUntil : Nat
  messages : List TxMessage

/-- Embeds `getTxFromUserClaim`.  The wall clock is passed explicitly:
`now_ms` is `Date.now()` in milliseconds, and `Math.floor(Date.now() / 1000)`
is natural-number division by 1000. -/
def getTxFromUserClaim (now_ms : Nat) (userClaim : UserClaim) : TxRequest :=
  { validUntil := now_ms / 1000 + 300
    messages := [
      { address := userClaim.claim_message.address
        amount := userClaim.claim_message.amount
        payload := userClaim.claim_message.payload
        stateInit := userClaim.claim_message.state_init }
    ] }

/-- The inline `error` object of `AirdropClaimError`. -/
structure ErrorDetail where
  code : String
  message : String

/-- Embeds the union `AirdropClaimResponse = AirdropClaimSuccess | AirdropClaimError`.
On success both `info` and `claim` hold the raw body; on failure `info`
is optional. -/
inductive AirdropClaimResponse where
  | success (info : Json) (claim : Json)
  | failure (info : Option Json) (error : ErrorDetail)

/-- The JSON bodies a result carries under `info` (and, on success,
`claim`). -/
def AirdropClaimResponse.infos : AirdropClaimResponse → List Json
  | .success info claim => [info, claim]
  | .failure (some info) _ => [info]
  | .failure none _ => []

/-- Embeds `statusCodeMapping`, the record from HTTP status codes to
error identifiers; absent keys yield `none` (JS `undefined`). -/
def statusCodeMapping (status : Int) : Option String :=
  if status = 404 then some "not_found"
  else if status = 425 then some "too_early"
  else if status = 409 then some "already_claimed"
  else if status = 423 then some "locked"
  else if status = 429 then some "blockchain_overload"
  else none

/-- Embeds `handleApiResponse`.  The `||` fallback of the source is
`Option.getD` (every mapped identifier is a non-empty, hence truthy,
string), and the `switch` with its default initialiser is the nested
conditional on `status`. -/
def handleApiResponse (status : Int) (data : Json) : AirdropClaimResponse :=
  if status = 200 then
    .success data data
  else
    let errorCode := (statusCodeMapping status).getD "unknown_error"
    let errorMessage :=
      if status = 425 then "The nearest vesting date has not arrived yet"
      else if status = 409 then "All Jettons have already been claimed"
      else if status = 423 then "Airdrop is locked by admin"
      else if status = 429 then "Blockchain is currently overloaded"
      else if status = 404 then "Airdrop not found or not processed yet"
      else "Unknown error occurred"
    .failure (some data) { code := errorCode, message := errorMessage }

/-- Outcome of the HTTP exchange as seen past `fetch(url).then(r => r.json() ...)`:
either a status code with a parsed JSON body, or any exception raised
during the request or the body parse. -/
inductive FetchOutcome where
  | ok (status : Int) (body : Json)
  | fail

/-- The URL the source builds inside `fetchAirdropClaim` (its `baseUrl`
and `url` template literals). -/
def fetchRequestUrl (airdropId : String) (connectedAddress : String)
    (testnet : Bool) : String :=
  let baseUrl := (if testnet then "testnet" else "mainnet") ++ "-airdrop.tonapi.io"
  "https://" ++ baseUrl ++ "/v2/airdrop/claim/" ++ connectedAddress ++ "?id=" ++ airdropId

/-- Embeds `fetchAirdropClaim`.  `transport` stands for the ambient
`fetch` plus JSON parse, indexed by the URL it is given; the `.catch`
branch of the source is the `fail` case. -/
def fetchAirdropClaim (airdropId : String) (connectedAddress : String)
    (testnet : Bool) (transport : String → FetchOutcome) : AirdropClaimResponse :=
  let baseUrl := (if testnet then "testnet" else "mainnet") ++ "-airdrop.tonapi.io"
  let url := "https://" ++ baseUrl ++ "/v2/airdrop/claim/" ++ connectedAddress ++ "?id=" ++ airdropId
  match transport url with
  | .ok status body => handleApiResponse status body
  | .fail =>
      .failure none { code := "network_error", message := "Network error. Please try again later." }

/-- Value of a decimal digit character, `none` for any other character. -/
def decDigit (c : Char) : Option Nat :=
  let n := c.toNat
  if 48 ≤ n ∧ n ≤ 57 then some (n - 48) else none

/-- Accumulating decimal parse over a character list; fails on the first
non-digit. -/
def parseDecCore : List Char → Nat → Option Nat
  | [], acc => some acc
  | c :: cs, acc =>
    match decDigit c with
    | some d => parseDecCore cs (acc * 10 + d)
    | none => none

/-- Parse of a decimal-string-encoded unsigned integer, the encoding the
data model prescribes for amounts; empty strings are rejected. -/
def parseDec (s : String) : Option Nat :=
  match s.data with
  | [] => none
  | c :: cs => parseDecCore (c :: cs) 0

/-- States the data-model invariant on one JSON body viewed as a
`UserClaimInfo`: both amount fields are present as decimal strings and
`available_jetton_amount` is at most `total_jetton_amount`. -/
def claimAmountsLeB (j : Json) : Bool :=
  match j.getField "available_jetton_amount", j.getField "total_jetton_amount" with
  | some (.str a), some (.str t) =>
    match parseDec a, parseDec t with
    | some na, some nt => decide (na ≤ nt)
    | _, _ => false
  | _, _ => false

/-- C1: for every JSON body, classifying an HTTP 200 response yields a
success result whose `info` and `claim` fields are both that body. -/
theorem classify_200_success_two_views (body : Json) :
    handleApiResponse 200 body = .success body body := rfl

/-- C2: for every JSON body and every status among 404, 425, 409, 423
and 429, the classifier returns failure with `info` equal to the body
and exactly the code and message of the fixed table. -/
theorem classify_mapped_error_table (body : Json) :
    handleApiResponse 404 body =
      .failure (some body) ⟨"not_found", "Airdrop not found or not processed yet"⟩
    ∧ handleApiResponse 425 body =
      .failure (some body) ⟨"too_early", "The nearest vesting date has not arrived yet"⟩
    ∧ handleApiResponse 409 body =
      .failure (some body) ⟨"already_claimed", "All Jettons have already been claimed"⟩
    ∧ handleApiResponse 423 body =
      .failure (some body) ⟨"locked", "Airdrop is locked by admin"⟩
    ∧ handleApiResponse 429 body =
      .failure (some body) ⟨"blockchain_overload", "Blockchain is currently overloaded"⟩ :=
  ⟨rfl, rfl, rfl, rfl, rfl⟩

/-- C3: for every JSON body and every status outside the handled set,
the classifier returns failure with code unknown_error, the generic
message, and `info` equal to the body. -/
theorem classify_unmapped_unknown_error (status : Int) (body : Json)
    (h : status ∉ ([200, 404, 425, 409, 423, 429] : List Int)) :
    handleApiResponse status body =
      .failure (some body) ⟨"unknown_error", "Unknown error occurred"⟩ := by
  simp only [List.mem_cons, List.not_mem_nil, or_false, not_or] at h
  obtain ⟨h200, h404, h425, h409, h423, h429⟩ := h
  simp [handleApiResponse, statusCodeMapping, h200, h404, h425, h409, h423, h429]

/-- Witness for C3 at status 500 and a null body. -/
theorem classify_unmapped_unknown_error_witness :
    handleApiResponse 500 .null =
      .failure (some .null) ⟨"unknown_error", "Unknown error occurred"⟩ :=
  classify_unmapped_unknown_error 500 .null (by decide)

/-- C4: whenever the transport fails at the request URL (connection
failure, timeout, non-JSON body, or any exception during fetch or
parse), `fetchAirdropClaim` still resolves to a value, namely the fixed
network-error result with `info` omitted. -/
theorem fetch_transport_failure_network_error (airdropId : String)
    (connectedAddress : String) (testnet : Bool) (transport : String → FetchOutcome)
    (h : transport (fetchRequestUrl airdropId connectedAddress testnet) = .fail) :
    fetchAirdropClaim airdropId connectedAddress testnet transport =
      .failure none ⟨"network_error", "Network error. Please try again later."⟩ := by
  simp only [fetchAirdropClaim]
  rw [show ("https://" ++ ((if testnet then "testnet" else "mainnet") ++ "-airdrop.tonapi.io")
        ++ "/v2/airdrop/claim/" ++ connectedAddress ++ "?id=" ++ airdropId)
      = fetchRequestUrl airdropId connectedAddress testnet from rfl, h]

/-- Witness for C4 with an always-failing transport. -/
theorem fetch_transport_failure_network_error_witness :
    fetchAirdropClaim "airdrop-1" "addr-1" false (fun _ => .fail) =
      .failure none ⟨"network_error", "Network error. Please try again later."⟩ :=
  fetch_transport_failure_network_error "airdrop-1" "addr-1" false (fun _ => .fail) rfl

/-- C5: for every clock value and every claim, the built transaction has
exactly one message, copying address, amount and payload verbatim and
renaming state_init to stateInit, and its validUntil is the floor of the
current unix time in seconds plus 300. -/
theorem tx_shape_and_deadline (now_ms : Nat) (c : UserClaim) :
    getTxFromUserClaim now_ms c =
      { validUntil := now_ms / 1000 + 300
        messages := [
          { address := c.claim_message.address
            amount := c.claim_message.amount
            payload := c.claim_message.payload
            stateInit := c.claim_message.state_init }
        ] } := rfl

/-- C6: the request URL is exactly the testnet host URL when testnet is
true and the mainnet host URL when it is false, with address and id
inserted verbatim; and the fetch result depends on the transport only
through its answer at that one URL (the single GET). -/
theorem fetch_request_url_exact (airdropId : String) (connectedAddress : String) :
    fetchRequestUrl airdropId connectedAddress true =
      "https://testnet-airdrop.tonapi.io/v2/airdrop/claim/" ++ connectedAddress
        ++ "?id=" ++ airdropId
    ∧ fetchRequestUrl airdropId connectedAddress false =
      "https://mainnet-airdrop.tonapi.io/v2/airdrop/claim/" ++ connectedAddress
        ++ "?id=" ++ airdropId
    ∧ ∀ (testnet : Bool) (transport : String → FetchOutcome),
        fetchAirdropClaim airdropId connectedAddress testnet transport =
          fetchAirdropClaim airdropId connectedAddress testnet
            (fun _ => transport (fetchRequestUrl airdropId connectedAddress testnet)) :=
  ⟨rfl, rfl, fun _ _ => rfl⟩

/-- Shape lemma: the classifier returns either the success view of the
body or a failure carrying the body as `info`. -/
theorem handleApiResponse_shape (status : Int) (body : Json) :
    handleApiResponse status body = .success body body ∨
    ∃ err, handleApiResponse status body = .failure (some body) err := by
  by_cases hs : status = 200
  · left
    simp [handleApiResponse, hs]
  · right
    unfold handleApiResponse
    rw [if_neg hs]
    exact ⟨_, rfl⟩

/-- Every JSON body carried inside a classifier result is the input body
itself. -/
theorem mem_infos_eq_body (status : Int) (body : Json) (j : Json)
    (hj : j ∈ (handleApiResponse status body).infos) : j = body := by
  rcases handleApiResponse_shape status body with h | ⟨err, h⟩
  · rw [h] at hj
    simp only [AirdropClaimResponse.infos, List.mem_cons, List.not_mem_nil, or_false] at hj
    tauto
  · rw [h] at hj
    simp only [AirdropClaimResponse.infos, List.mem_cons, List.not_mem_nil, or_false] at hj
    exact hj

/-- C8: the classifier is a total function: for every integer status and
every JSON body (null included) it returns a value of the result union,
either the success view or a failure carrying the body. -/
theorem classify_total_union (status : Int) (body : Json) :
    handleApiResponse status body = .success body body ∨
    ∃ err, handleApiResponse status body = .failure (some body) err :=
  handleApiResponse_shape status body

/-- A well-formed ClaimInfo-shaped body whose available amount exceeds
its total amount; the classifier passes it through unvalidated. -/
def cexBody : Json :=
  .obj [("jetton", .str "kQABjetton"),
        ("available_jetton_amount", .str "2"),
        ("total_jetton_amount", .str "1"),
        ("claimed_jetton_amount", .str "0")]

/-- C7, counterexample: it is not the case that every ClaimInfo carried
inside a result of the classifier satisfies available less-or-equal
total; status 200 with `cexBody` produces a result carrying a body that
violates it. -/
theorem classify_amounts_invariant_counterexample :
    ¬ (∀ (status : Int) (body : Json),
        ∀ j ∈ (handleApiResponse status body).infos, claimAmountsLeB j = true) := by
  intro h
  have hmem : cexBody ∈ (handleApiResponse 200 cexBody).infos := by
    show cexBody ∈ [cexBody, cexBody]
    exact List.mem_cons_self _ _
  have hc := h 200 cexBody cexBody hmem
  have hf : claimAmountsLeB cexBody = false := rfl
  rw [hf] at hc
  exact Bool.false_ne_true hc

/-- C7, amended: the module passes bodies through without validating
amounts, so the invariant is only preserved, not enforced: whenever the
input body satisfies available less-or-equal total, so does every
ClaimInfo carried inside the classifier result. -/
theorem classify_preserves_amounts_invariant (status : Int) (body : Json)
    (h : claimAmountsLeB body = true) :
    ∀ j ∈ (handleApiResponse status body).infos, claimAmountsLeB j = true := by
  intro j hj
  rw [mem_infos_eq_body status body j hj]
  exact h

/-- A ClaimInfo-shaped body satisfying the amount invariant. -/
def okBody : Json :=
  .obj [("jetton", .str "kQABjetton"),
        ("available_jetton_amount", .str "1"),
        ("total_jetton_amount", .str "2"),
        ("claimed_jetton_amount", .str "0")]

/-- Witness for the amended C7 at status 200 and `okBody`. -/
theorem classify_preserves_amounts_invariant_witness :
    claimAmountsLeB okBody = true ∧
      ∀ j ∈ (handleApiResponse 200 okBody).infos, claimAmountsLeB j = true :=
  ⟨rfl, classify_preserves_amounts_invariant 200 okBody rfl⟩

/-- C9: every failure produced by the classifier carries the body as
`info`; and a fetch result that is a failure without `info` can only
come from the catch branch, so its code is network_error. -/
theorem failure_without_info_is_network_error :
    (∀ (status : Int) (body : Json) (info : Option Json) (err : ErrorDetail),
        handleApiResponse status body = .failure info err → info = some body)
    ∧ (∀ (airdropId connectedAddress : String) (testnet : Bool)
        (transport : String → FetchOutcome) (err : ErrorDetail),
        fetchAirdropClaim airdropId connectedAddress testnet transport =
            .failure none err →
          err.code = "network_error") := by
  have hinfo : ∀ (status : Int) (body : Json) (info : Option Json) (err : ErrorDetail),
      handleApiResponse status body = .failure info err → info = some body := by
    intro status body info err h
    rcases handleApiResponse_shape status body with hs | ⟨e, hs⟩
    · rw [hs] at h
      exact absurd h (by simp)
    · rw [hs] at h
      injection h with h1 h2
      exact h1.symm
  refine ⟨hinfo, ?_⟩
  intro airdropId connectedAddress testnet transport err h
  simp only [fetchAirdropClaim] at h
  rw [show ("https://" ++ ((if testnet then "testnet" else "mainnet") ++ "-airdrop.tonapi.io")
        ++ "/v2/airdrop/claim/" ++ connectedAddress ++ "?id=" ++ airdropId)
      = fetchRequestUrl airdropId connectedAddress testnet from rfl] at h
  cases hout : transport (fetchRequestUrl airdropId connectedAddress testnet) with
  | ok status body =>
      rw [hout] at h
      have := hinfo status body none err h
      exact absurd this (by simp)
  | fail =>
      rw [hout] at h
      injection h with h1 h2
      rw [← h2]

/-- Witness for C9 at concrete inputs: a mapped failure at status 404,
and a failing transport yielding the network-error code. -/
theorem failure_without_info_is_network_error_witness :
    ((some Json.null : Option Json) = some Json.null) ∧
      (ErrorDetail.mk "network_error" "Network error. Please try again later.").code
        = "network_error" :=
  ⟨failure_without_info_is_network_error.1 404 .null (some .null)
      ⟨"not_found", "Airdrop not found or not processed yet"⟩ rfl,
    failure_without_info_is_network_error.2 "airdrop-1" "addr-1" true
      (fun _ => .fail)
      ⟨"network_error", "Network error. Please try again later."⟩ rfl⟩

/-- C10: the messages of the built transaction depend only on the
claim_message, never on the jetton, amount or vesting fields; and the
mode field of the claim_message does not influence the output at all. -/
theorem tx_depends_only_on_claim_message :
    (∀ (now_ms : Nat) (c1 c2 : UserClaim), c1.claim_message = c2.claim_message →
        (getTxFromUserClaim now_ms c1).messages = (getTxFromUserClaim now_ms c2).messages)
    ∧ (∀ (now_ms : Nat) (c : UserClaim) (m : Int),
        getTxFromUserClaim now_ms
            { c with claim_message := { c.claim_message with mode := m } } =
          getTxFromUserClaim now_ms c) := by
  constructor
  · intro now_ms c1 c2 h
    simp [getTxFromUserClaim, h]
  · intro now_ms c m
    rfl

/-- A concrete transfer message for the C10 witness. -/
def msgW : InternalMessage :=
  { mode := 3, address := "kQADst", state_init := some "c2k=", payload := "cGF5", amount := "100" }

/-- A concrete claim for the C10 witness. -/
def claimW1 : UserClaim :=
  { jetton := "J1", available_jetton_amount := "1", total_jetton_amount := "2",
    claimed_jetton_amount := "0", vesting_parameters := none, claim_message := msgW }

/-- A second concrete claim sharing only the claim_message with the first. -/
def claimW2 : UserClaim :=
  { jetton := "J2", available_jetton_amount := "7", total_jetton_amount := "9",
    claimed_jetton_amount := "5", vesting_parameters := some (), claim_message := msgW }

/-- Witness for C10 on two concrete claims differing everywhere except
the claim_message. -/
theorem tx_depends_only_on_claim_message_witness :
    claimW1.claim_message = claimW2.claim_message ∧
      (getTxFromUserClaim 1000 claimW1).messages = (getTxFromUserClaim 1000 claimW2).messages :=
  ⟨rfl, tx_depends_only_on_claim_message.1 1000 claimW1 claimW2 rfl⟩
